import Mathlib

/-!
Shallow embedding of the Shorelark front-end (src/www/index.js) and proofs
about its rendering loop, fitness aggregation, coordinate mapping, triangle
geometry and viewport initialization.

Modelling conventions:
- JavaScript numbers are modelled as exact rationals for the finite fragment;
  the special values produced by division (NaN, Infinity) are modelled by the
  JsNum type, since the behaviour of `avg_fitness /= world.animals.length` on
  an empty population hinges on them.
- The trigonometric geometry of drawTriangle is modelled over the reals with
  Real.sin / Real.cos.
- The side-effecting loop body `redraw` is modelled as a function from the
  engine state to the list of observable events it performs, in order, plus
  the successor engine state.
-/

namespace Shorelark

/-- The fragment of JavaScript number semantics the program exercises:
finite values are exact rationals; `nan`, `inf` and `negInf` are the
floating-point special values.  All arithmetic in index.js other than the
average's division stays within the finite fragment. -/
inductive JsNum where
  | nan : JsNum
  | inf : JsNum
  | negInf : JsNum
  | fin (q : ℚ) : JsNum
deriving DecidableEq

/-- JavaScript division restricted to the shapes the program can produce:
`a / 0` is `NaN` when `a = 0` and a signed infinity otherwise; division of
the non-finite values (never produced by index.js before a division) is
collapsed to `nan`. -/
def jsDiv : JsNum → JsNum → JsNum
  | JsNum.fin a, JsNum.fin b =>
      if b = 0 then
        if a = 0 then JsNum.nan
        else if 0 < a then JsNum.inf
        else JsNum.negInf
      else JsNum.fin (a / b)
  | _, _ => JsNum.nan

/-- An animal as exposed by the engine's world snapshot: position in
[0,1] x [0,1], heading in radians, fitness.  (The engine also exposes a
speed field, unused by index.js.) -/
structure Animal where
  x : ℚ
  y : ℚ
  rotation : ℚ
  fitness : ℚ
deriving DecidableEq

/-- A food as exposed by the world snapshot: position in [0,1] x [0,1]. -/
structure Food where
  x : ℚ
  y : ℚ
deriving DecidableEq

/-- One world snapshot: the `world.animals` and `world.foods` collections. -/
structure World where
  animals : List Animal
  foods : List Food
deriving DecidableEq

/-- The fitness values of a snapshot's animals, in collection order. -/
def fitnesses (w : World) : List ℚ :=
  w.animals.map (fun a => a.fitness)

/-- The running sum computed by `avg_fitness += animal.fitness` starting
from `let avg_fitness = 0`. -/
def sumFitness (l : List ℚ) : ℚ :=
  l.foldl (fun a b => a + b) 0

/-- The running maximum computed by
`max_fitness = Math.max(max_fitness, animal.fitness)` starting from
`let max_fitness = 0`. -/
def maxFitness (l : List ℚ) : ℚ :=
  l.foldl max 0

/-- The average as computed by `avg_fitness /= world.animals.length`,
with JavaScript division semantics (0/0 is NaN). -/
def avgFitness (l : List ℚ) : JsNum :=
  jsDiv (JsNum.fin (sumFitness l)) (JsNum.fin (l.length : ℚ))

/-- The duck-typed simulation engine interface consumed by index.js:
`world()`, `is_last_run()`, `generation()` and `step()`, over an opaque
state type. -/
structure Engine (σ : Type) where
  world : σ → World
  is_last_run : σ → Bool
  generation : σ → ℕ
  step : σ → σ

/-- The observable actions one pass of `redraw` performs, in order. -/
inductive Event where
  | clear : Event
  | fetched : Event
  | report (gen : ℕ) (avg maxF : JsNum) : Event
  | stepped : Event
  | circle (x y radius : ℚ) : Event
  | triangle (x y size rotation : ℚ) : Event
  | schedule : Event
deriving DecidableEq

/-- A simulation-space point, as fed to the pixel mapping. -/
structure Point where
  x : ℚ
  y : ℚ
deriving DecidableEq

/-- The simulation-to-pixel mapping applied inline to every food and animal:
`(p.x * viewportWidth, p.y * viewportHeight)`. -/
def toPixels (p : Point) (w h : ℚ) : ℚ × ℚ :=
  (p.x * w, p.y * h)

/-- The `drawCircle` calls issued for `world.foods`: each food is mapped to
pixels and drawn with radius `0.003 * viewportWidth`. -/
def drawFoods (w : World) (vw vh : ℚ) : List Event :=
  w.foods.map (fun f => Event.circle (f.x * vw) (f.y * vh) (3 / 1000 * vw))

/-- The `drawTriangle` calls issued for `world.animals`: each animal is
mapped to pixels and drawn with size `0.01 * viewportWidth` and its own
rotation. -/
def drawAnimals (w : World) (vw vh : ℚ) : List Event :=
  w.animals.map (fun a =>
    Event.triangle (a.x * vw) (a.y * vh) (1 / 100 * vw) a.rotation)

/-- The statistics block guarded by `if (simulation.is_last_run())`:
when the guard holds, one report with the generation index, the average
fitness and the max fitness of the given snapshot. -/
def boundaryReport (σ : Type) (E : Engine σ) (s : σ) (w : World) : List Event :=
  if E.is_last_run s then
    [Event.report (E.generation s) (avgFitness (fitnesses w))
      (JsNum.fin (maxFitness (fitnesses w)))]
  else []

/-- One pass of `redraw`, as the ordered list of observable events plus the
successor engine state: clear the surface, fetch one snapshot, report
statistics at a generation boundary, step the engine, draw the snapshot's
foods then animals, and schedule the next pass. -/
def redraw (σ : Type) (E : Engine σ) (s : σ) (vw vh : ℚ) : List Event × σ :=
  let w := E.world s
  (Event.clear :: Event.fetched ::
      (boundaryReport σ E s w ++
        Event.stepped ::
          (drawFoods w vw vh ++ drawAnimals w vw vh ++ [Event.schedule])),
    E.step s)

/-- Recognizes the statistics-report event. -/
def isReport : Event → Bool
  | Event.report _ _ _ => true
  | _ => false

/-- Recognizes the engine-advance event. -/
def isStep : Event → Bool
  | Event.stepped => true
  | _ => false

/-- Recognizes a drawing event (circle or triangle). -/
def isDraw : Event → Bool
  | Event.circle _ _ _ => true
  | Event.triangle _ _ _ _ => true
  | _ => false

/-- Recognizes the snapshot-fetch event. -/
def isFetch : Event → Bool
  | Event.fetched => true
  | _ => false

/-- The triangle vertices constructed by `drawTriangle(ctxt, x, y, size,
rotation)`: the moveTo point (apex) and the two lineTo points (base), in
source order. -/
noncomputable def triangleVertices (x y size rotation : ℝ) :
    (ℝ × ℝ) × (ℝ × ℝ) × (ℝ × ℝ) :=
  ((x - Real.sin rotation * 1.5, y + Real.cos rotation * 1.5),
   (x - Real.sin (rotation + 2 / 3 * Real.pi) * size,
    y + Real.cos (rotation + 2 / 3 * Real.pi) * size),
   (x - Real.sin (rotation + 4 / 3 * Real.pi) * size,
    y + Real.cos (rotation + 4 / 3 * Real.pi) * size))

/-- The screen-space unit direction associated with a heading angle by the
drawing code: angle `r` points toward `(-sin r, cos r)` (so `r = 0` points
toward increasing y). -/
noncomputable def dirOf (r : ℝ) : ℝ × ℝ :=
  (-Real.sin r, Real.cos r)

/-- Euclidean distance between two screen points. -/
noncomputable def ptDist (p q : ℝ × ℝ) : ℝ :=
  Real.sqrt ((p.1 - q.1) ^ 2 + (p.2 - q.2) ^ 2)

/-- Translation of a screen point by a scaled direction. -/
def ptAdd (p : ℝ × ℝ) (c : ℝ) (d : ℝ × ℝ) : ℝ × ℝ :=
  (p.1 + c * d.1, p.2 + c * d.2)

/-- The canvas element's initially laid-out logical size. -/
structure Canvas where
  width : ℚ
  height : ℚ
deriving DecidableEq

/-- The JavaScript expression `window.devicePixelRatio || 1`: the ratio when
present and truthy, `1` when it is unavailable (or zero, hence falsy). -/
def dprOrOne : Option ℚ → ℚ
  | none => 1
  | some r => if r = 0 then 1 else r

/-- The state established by the top-level viewport setup: backing-store
size, CSS-visible size, the context's scale transform, and the logical size
kept for all later drawing. -/
structure ViewportInit where
  backingWidth : ℚ
  backingHeight : ℚ
  cssWidth : ℚ
  cssHeight : ℚ
  scaleX : ℚ
  scaleY : ℚ
  logicalWidth : ℚ
  logicalHeight : ℚ
deriving DecidableEq

/-- The top-level viewport setup of index.js: read the logical size, resize
the backing store to logical times the device pixel ratio, pin the CSS size
back to the logical size, and scale the context uniformly by the ratio. -/
def initViewport (c : Canvas) (dpr : Option ℚ) : ViewportInit :=
  let vw := c.width
  let vh := c.height
  let scale := dprOrOne dpr
  { backingWidth := vw * scale
    backingHeight := vh * scale
    cssWidth := vw
    cssHeight := vh
    scaleX := scale
    scaleY := scale
    logicalWidth := vw
    logicalHeight := vh }

/-- Runs `n` consecutive redraw passes, concatenating their event lists. -/
def runCycles (σ : Type) (E : Engine σ) (s : σ) (vw vh : ℚ) : ℕ → List Event × σ
  | 0 => ([], s)
  | Nat.succ n =>
      let r := redraw σ E s vw vh
      let rest := runCycles σ E r.2 vw vh n
      (r.1 ++ rest.1, rest.2)

/-- The whole program: viewport setup happens once, up front, and every
subsequent redraw pass draws using the logical size it recorded. -/
def program (c : Canvas) (dpr : Option ℚ) (σ : Type) (E : Engine σ) (s : σ)
    (n : ℕ) : ViewportInit × (List Event × σ) :=
  let v := initViewport c dpr
  (v, runCycles σ E s v.logicalWidth v.logicalHeight n)

/-- A stub engine over state `ℕ`, reporting a constant world, boundary flag
and generation index; `step` is the successor. -/
def stubEngine (w : World) (last : Bool) (g : ℕ) : Engine ℕ :=
  { world := fun _ => w
    is_last_run := fun _ => last
    generation := fun _ => g
    step := Nat.succ }

/-- The world of the end-to-end scenario: two animals of fitness 4 and 8
plus one food. -/
def stubWorld : World :=
  { animals :=
      [{ x := 1 / 2, y := 1 / 2, rotation := 0, fitness := 4 },
       { x := 1 / 4, y := 3 / 4, rotation := 0, fitness := 8 }]
    foods := [{ x := 1 / 10, y := 1 / 5 }] }

/-- A world snapshot with no animals. -/
def emptyWorld : World :=
  { animals := [], foods := [{ x := 1 / 10, y := 1 / 5 }] }

/-- Helper: a left fold with `max` never drops below its initial value. -/
lemma le_foldl_max (l : List ℚ) (a : ℚ) : a ≤ l.foldl max a := by
  induction l generalizing a with
  | nil => exact le_refl a
  | cons b t ih => exact le_trans (le_max_left a b) (ih (max a b))

/-- Helper: the accumulated `avg_fitness` sum is the list sum. -/
lemma sumFitness_eq_sum (l : List ℚ) : sumFitness l = l.sum := by
  simp [sumFitness, List.sum, List.foldl_eq_foldr]

/-- Claim C1: each redraw pass fetches exactly one snapshot; the boundary
statistics and every drawing call are computed from that same pre-advance
snapshot; every report precedes the engine advance, every drawing call
follows it, the engine is advanced exactly once, and the resulting state is
the stepped one. -/
theorem c1_snapshot_before_advance (σ : Type) (E : Engine σ) (s : σ)
    (vw vh : ℚ) :
    (redraw σ E s vw vh).1.filter isFetch = [Event.fetched]
    ∧ (redraw σ E s vw vh).1.filter isReport =
        (if E.is_last_run s then
          [Event.report (E.generation s) (avgFitness (fitnesses (E.world s)))
            (JsNum.fin (maxFitness (fitnesses (E.world s))))]
         else [])
    ∧ (redraw σ E s vw vh).1.filter isDraw =
        drawFoods (E.world s) vw vh ++ drawAnimals (E.world s) vw vh
    ∧ ((redraw σ E s vw vh).1.takeWhile (fun e => !(isStep e))).filter isReport
        = (redraw σ E s vw vh).1.filter isReport
    ∧ ((redraw σ E s vw vh).1.takeWhile (fun e => !(isStep e))).filter isDraw
        = []
    ∧ ((redraw σ E s vw vh).1.filter isStep).length = 1
    ∧ (redraw σ E s vw vh).2 = E.step s := by
  cases hlr : E.is_last_run s <;>
    simp [redraw, boundaryReport, hlr, drawFoods, drawAnimals,
      List.filter_append, List.filter_map, Function.comp_def, isDraw,
      isReport, isStep, isFetch, List.takeWhile]

/-- Claim C2 counterexample: at a boundary over an empty animals
collection the aggregation silently produces the non-numeric average NaN
(JavaScript 0/0), and the emitted report carries it; no distinct
empty-population condition is signaled. -/
theorem c2_empty_population_nan :
    avgFitness (fitnesses emptyWorld) = JsNum.nan
    ∧ (redraw ℕ (stubEngine emptyWorld true 3) 0 800 600).1.filter isReport
        = [Event.report 3 JsNum.nan (JsNum.fin 0)] := by
  constructor
  · decide
  · simp [redraw, boundaryReport, stubEngine, emptyWorld, fitnesses,
      avgFitness, sumFitness, maxFitness, jsDiv, drawFoods, drawAnimals,
      List.filter_append, List.filter_map, Function.comp_def, isReport]

/-- Claim C2 as amended: when a boundary is detected on a snapshot with an
empty animals collection, the loop silently emits a report whose average is
the non-numeric NaN (0 divided by 0 under JavaScript semantics) and whose
max is the initial 0, and still schedules the next cycle; no distinct
empty-population condition is signaled. -/
theorem c2_empty_population_silent_nan (σ : Type) (E : Engine σ) (s : σ)
    (vw vh : ℚ) (h1 : (E.world s).animals = [])
    (h2 : E.is_last_run s = true) :
    (redraw σ E s vw vh).1.filter isReport =
      [Event.report (E.generation s) JsNum.nan (JsNum.fin 0)]
    ∧ Event.schedule ∈ (redraw σ E s vw vh).1 := by
  have hfit : fitnesses (E.world s) = [] := by simp [fitnesses, h1]
  simp [redraw, boundaryReport, h2, hfit, avgFitness, sumFitness, maxFitness,
    jsDiv, drawFoods, drawAnimals, List.filter_append, List.filter_map,
    Function.comp_def, isReport]

/-- Witness for the amended claim C2, on a concrete engine stub with an
empty population at a boundary. -/
theorem c2_empty_population_silent_nan_witness :
    ((stubEngine emptyWorld true 3).world 0).animals = []
    ∧ (stubEngine emptyWorld true 3).is_last_run 0 = true
    ∧ (redraw ℕ (stubEngine emptyWorld true 3) 0 800 600).1.filter isReport
        = [Event.report 3 JsNum.nan (JsNum.fin 0)] :=
  ⟨rfl, rfl,
    (c2_empty_population_silent_nan ℕ (stubEngine emptyWorld true 3) 0 800 600
      rfl rfl).1⟩

/-- Claim C3 counterexample: with the center at the origin and rotation 0,
the apex vertex lies at (0, 1.5) — the same x but a strictly LARGER y than
the center, i.e. below it in screen space, so the apex is not rendered
above the center. -/
theorem c3_apex_not_above :
    ¬ ((triangleVertices 0 0 1 0).1.1 = 0
        ∧ (triangleVertices 0 0 1 0).1.2 < 0) := by
  intro h
  have h2 := h.2
  simp [triangleVertices] at h2
  norm_num at h2

/-- Claim C3 as amended: for every center and size, rotation 0 places the
apex directly BELOW the center in screen space — the same x coordinate and
a strictly larger y coordinate (at offset 1.5). -/
theorem c3_rotation_zero_apex_below (x y size : ℝ) :
    (triangleVertices x y size 0).1 = (x, y + 1.5)
    ∧ (triangleVertices x y size 0).1.1 = x
    ∧ y < (triangleVertices x y size 0).1.2 := by
  simp [triangleVertices]
  norm_num

/-- Claim C4: for every center, size and rotation, the triangle's apex is
at distance 1.5 from the center along the code's direction for the
rotation angle, and the two base vertices are at distance `size` along the
directions offset by plus and minus 2*pi/3 from it (the source's
`rotation + 4*pi/3` being the same direction as `rotation - 2*pi/3`). -/
theorem c4_triangle_geometry (x y size rot : ℝ) (h : 0 ≤ size) :
    (triangleVertices x y size rot).1 = ptAdd (x, y) 1.5 (dirOf rot)
    ∧ (triangleVertices x y size rot).2.1
        = ptAdd (x, y) size (dirOf (rot + 2 / 3 * Real.pi))
    ∧ (triangleVertices x y size rot).2.2
        = ptAdd (x, y) size (dirOf (rot - 2 / 3 * Real.pi))
    ∧ ptDist (triangleVertices x y size rot).1 (x, y) = 1.5
    ∧ ptDist (triangleVertices x y size rot).2.1 (x, y) = size
    ∧ ptDist (triangleVertices x y size rot).2.2 (x, y) = size := by
  have harg : rot + 4 / 3 * Real.pi = (rot - 2 / 3 * Real.pi) + 2 * Real.pi :=
    by ring
  refine ⟨?_, ?_, ?_, ?_, ?_, ?_⟩
  · simp only [triangleVertices, ptAdd, dirOf, Prod.mk.injEq]
    constructor <;> ring
  · simp only [triangleVertices, ptAdd, dirOf, Prod.mk.injEq]
    constructor <;> ring
  · simp only [triangleVertices, ptAdd, dirOf, Prod.mk.injEq, harg,
      Real.sin_add_two_pi, Real.cos_add_two_pi]
    constructor <;> ring
  · have hsq : (x - Real.sin rot * 1.5 - x) ^ 2
        + (y + Real.cos rot * 1.5 - y) ^ 2 = (1.5 : ℝ) ^ 2 := by
      nlinarith [Real.sin_sq_add_cos_sq rot]
    simp only [triangleVertices, ptDist]
    rw [hsq, Real.sqrt_sq (by norm_num : (0:ℝ) ≤ 1.5)]
  · have hsq : (x - Real.sin (rot + 2 / 3 * Real.pi) * size - x) ^ 2
        + (y + Real.cos (rot + 2 / 3 * Real.pi) * size - y) ^ 2
        = size ^ 2 := by
      nlinarith [Real.sin_sq_add_cos_sq (rot + 2 / 3 * Real.pi)]
    simp only [triangleVertices, ptDist]
    rw [hsq, Real.sqrt_sq h]
  · have hsq : (x - Real.sin (rot + 4 / 3 * Real.pi) * size - x) ^ 2
        + (y + Real.cos (rot + 4 / 3 * Real.pi) * size - y) ^ 2
        = size ^ 2 := by
      nlinarith [Real.sin_sq_add_cos_sq (rot + 4 / 3 * Real.pi)]
    simp only [triangleVertices, ptDist]
    rw [hsq, Real.sqrt_sq h]

/-- Witness for claim C4 at center (0,0), size 1, rotation 0. -/
theorem c4_triangle_geometry_witness :
    (0 : ℝ) ≤ 1
    ∧ ptDist (triangleVertices 0 0 1 0).1 (0, 0) = 1.5
    ∧ ptDist (triangleVertices 0 0 1 0).2.1 (0, 0) = 1 :=
  ⟨by norm_num,
    (c4_triangle_geometry 0 0 1 0 (by norm_num)).2.2.2.1,
    (c4_triangle_geometry 0 0 1 0 (by norm_num)).2.2.2.2.1⟩

/-- Claim C5: the simulation-to-pixel mapping is exactly
(p.x * W, p.y * H), sending (0,0) to (0,0) and (1,1) to (W,H), and every
food and animal drawn in a redraw pass has its position mapped through it. -/
theorem c5_to_pixels (σ : Type) (E : Engine σ) (s : σ) (p : Point)
    (w h : ℚ) (hx0 : 0 ≤ p.x) (hx1 : p.x ≤ 1) (hy0 : 0 ≤ p.y)
    (hy1 : p.y ≤ 1) :
    toPixels p w h = (p.x * w, p.y * h)
    ∧ toPixels { x := 0, y := 0 } w h = (0, 0)
    ∧ toPixels { x := 1, y := 1 } w h = (w, h)
    ∧ (redraw σ E s w h).1.filter isDraw =
        (E.world s).foods.map (fun f =>
          Event.circle (toPixels { x := f.x, y := f.y } w h).1
            (toPixels { x := f.x, y := f.y } w h).2 (3 / 1000 * w))
        ++ (E.world s).animals.map (fun a =>
          Event.triangle (toPixels { x := a.x, y := a.y } w h).1
            (toPixels { x := a.x, y := a.y } w h).2 (1 / 100 * w)
            a.rotation) := by
  refine ⟨rfl, by simp [toPixels], by simp [toPixels], ?_⟩
  cases hlr : E.is_last_run s <;>
    simp [redraw, boundaryReport, hlr, drawFoods, drawAnimals, toPixels,
      List.filter_append, List.filter_map, Function.comp_def, isDraw]

/-- Witness for claim C5 at the point (1/2, 1/3) on an 800 by 600 canvas. -/
theorem c5_to_pixels_witness :
    (0 : ℚ) ≤ 1 / 2 ∧ (1 / 2 : ℚ) ≤ 1 ∧ (0 : ℚ) ≤ 1 / 3 ∧ (1 / 3 : ℚ) ≤ 1
    ∧ toPixels { x := 1 / 2, y := 1 / 3 } 800 600 = (1 / 2 * 800, 1 / 3 * 600) :=
  ⟨by norm_num, by norm_num, by norm_num, by norm_num,
    (c5_to_pixels ℕ (stubEngine stubWorld true 1) 0 { x := 1 / 2, y := 1 / 3 }
      800 600 (by norm_num) (by norm_num) (by norm_num) (by norm_num)).1⟩

/-- Claim C6: on a non-empty fitness list the aggregation's average is the
sum divided by the count and its max is the fold of the pairwise maximum
started at zero; on [2, 5, 3] it yields average 10/3 and max 5, and on the
empty list the max stays at the initial 0. -/
theorem c6_summarize (l : List ℚ) (h : l ≠ []) :
    avgFitness l = JsNum.fin (l.sum / l.length)
    ∧ maxFitness l = l.foldl max 0
    ∧ avgFitness [2, 5, 3] = JsNum.fin (10 / 3)
    ∧ maxFitness [2, 5, 3] = 5
    ∧ maxFitness ([] : List ℚ) = 0 := by
  refine ⟨?_, rfl, ?_, ?_, rfl⟩
  · have hlen : (l.length : ℚ) ≠ 0 :=
      Nat.cast_ne_zero.mpr (by simpa using h)
    simp [avgFitness, jsDiv, hlen, sumFitness_eq_sum]
  · simp [avgFitness, sumFitness, jsDiv]
    norm_num
  · simp [maxFitness]
    norm_num

/-- Witness for claim C6 on the non-empty list [2, 5, 3]. -/
theorem c6_summarize_witness :
    ([2, 5, 3] : List ℚ) ≠ []
    ∧ avgFitness [2, 5, 3] = JsNum.fin (10 / 3)
    ∧ maxFitness [2, 5, 3] = 5 :=
  ⟨by simp,
    (c6_summarize [2, 5, 3] (by simp)).2.2.1,
    (c6_summarize [2, 5, 3] (by simp)).2.2.2.1⟩

/-- Claim C7: in a boundary cycle the loop emits exactly one report,
carrying the engine's generation index and the snapshot's average and max
fitness, and every report precedes the engine advance; on the stub engine
with generation 1 and animals of fitness 4 and 8 the single report is
(1, 6, 8). -/
theorem c7_boundary_report (σ : Type) (E : Engine σ) (s : σ) (vw vh : ℚ)
    (h : E.is_last_run s = true) :
    (redraw σ E s vw vh).1.filter isReport =
      [Event.report (E.generation s) (avgFitness (fitnesses (E.world s)))
        (JsNum.fin (maxFitness (fitnesses (E.world s))))]
    ∧ ((redraw σ E s vw vh).1.takeWhile (fun e => !(isStep e))).filter isReport
        = (redraw σ E s vw vh).1.filter isReport
    ∧ (redraw σ E s vw vh).2 = E.step s
    ∧ (redraw ℕ (stubEngine stubWorld true 1) 0 vw vh).1.filter isReport =
        [Event.report 1 (JsNum.fin 6) (JsNum.fin 8)] := by
  refine ⟨?_, ?_, rfl, ?_⟩
  · simp [redraw, boundaryReport, h, drawFoods, drawAnimals,
      List.filter_append, List.filter_map, Function.comp_def, isReport]
  · simp [redraw, boundaryReport, h, drawFoods, drawAnimals,
      List.filter_append, List.filter_map, Function.comp_def, isReport,
      isStep, List.takeWhile]
  · simp [redraw, boundaryReport, stubEngine, stubWorld, fitnesses,
      avgFitness, sumFitness, maxFitness, jsDiv, drawFoods, drawAnimals,
      List.filter_append, List.filter_map, Function.comp_def, isReport]
    norm_num

/-- Witness for claim C7 on the stub engine of the end-to-end scenario. -/
theorem c7_boundary_report_witness :
    (stubEngine stubWorld true 1).is_last_run 0 = true
    ∧ (redraw ℕ (stubEngine stubWorld true 1) 0 800 600).1.filter isReport =
        [Event.report 1 (JsNum.fin 6) (JsNum.fin 8)] :=
  ⟨rfl, (c7_boundary_report ℕ (stubEngine stubWorld true 1) 0 800 600
    rfl).2.2.2⟩

/-- Claim C8: viewport initialization multiplies the initially read logical
size by the device pixel ratio (1 when it is unavailable) for the backing
store, pins the CSS-visible size back to the logical size, applies one
uniform context scale of that ratio, and is performed once up front — the
viewport state of a whole program run does not depend on how many redraw
cycles follow. -/
theorem c8_viewport_init (c : Canvas) (dpr : Option ℚ) (σ : Type)
    (E : Engine σ) (s : σ) (n : ℕ) :
    (program c dpr σ E s n).1 = initViewport c dpr
    ∧ (initViewport c dpr).backingWidth = c.width * dprOrOne dpr
    ∧ (initViewport c dpr).backingHeight = c.height * dprOrOne dpr
    ∧ (initViewport c dpr).cssWidth = c.width
    ∧ (initViewport c dpr).cssHeight = c.height
    ∧ (initViewport c dpr).scaleX = dprOrOne dpr
    ∧ (initViewport c dpr).scaleY = dprOrOne dpr
    ∧ dprOrOne none = 1 := by
  simp [program, initViewport, dprOrOne]

/-- Claim C9: the running maximum starts at zero, so the reported max
fitness is never negative, whatever the fitness values are; in particular
the all-negative population [-5] and the population [0] whose best fitness
is zero both report max 0. -/
theorem c9_max_fitness_nonneg (l : List ℚ) :
    0 ≤ maxFitness l
    ∧ maxFitness [(-5)] = 0
    ∧ maxFitness [0] = 0
    ∧ maxFitness [(-5)] = maxFitness [0] := by
  refine ⟨le_foldl_max l 0, ?_, rfl, ?_⟩ <;> simp [maxFitness]

/-- Claim C10: in a non-boundary cycle no report is emitted — the event
list is exactly clear, fetch, step, the snapshot's food and animal drawing
calls, and the rescheduling — the engine is advanced exactly once and the
resulting state is the stepped one. -/
theorem c10_non_boundary_cycle (σ : Type) (E : Engine σ) (s : σ)
    (vw vh : ℚ) (h : E.is_last_run s = false) :
    (redraw σ E s vw vh).1 =
      Event.clear :: Event.fetched :: Event.stepped ::
        (drawFoods (E.world s) vw vh ++ drawAnimals (E.world s) vw vh
          ++ [Event.schedule])
    ∧ (redraw σ E s vw vh).1.filter isReport = []
    ∧ ((redraw σ E s vw vh).1.filter isStep).length = 1
    ∧ (redraw σ E s vw vh).2 = E.step s := by
  simp [redraw, boundaryReport, h, drawFoods, drawAnimals,
    List.filter_append, List.filter_map, Function.comp_def, isReport, isStep]

/-- Witness for claim C10 on a stub engine away from a boundary. -/
theorem c10_non_boundary_cycle_witness :
    (stubEngine stubWorld false 1).is_last_run 0 = false
    ∧ (redraw ℕ (stubEngine stubWorld false 1) 0 800 600).1.filter isReport
        = [] :=
  ⟨rfl, (c10_non_boundary_cycle ℕ (stubEngine stubWorld false 1) 0 800 600
    rfl).2.1⟩

end Shorelark
